import Mathlib

/-!
Verification of the TeachAssist / Nova-Act example repository.

This file shallowly embeds the deterministic parts of the repository's
Python scripts in Lean 4 and proves or refutes the specification claims
about them.  External effects (LLM calls, browser actions, the Streamlit
session, the file system) are modelled explicitly: every string produced
by an external service is an input to the embedded function, and every
observable effect is collected into an explicit trace or state value.
Python exceptions raised by external calls are modelled with
`Except String` / `Option`, carrying `str(e)`.

Python string primitives are modelled on Lean `String`s.  The scripts
only ever lowercase, strip and search ASCII command words ("teacher",
"store", "exit", "quit"), for which the ASCII-level models below agree
with CPython.
-/

/-- Lowercasing of one character, ASCII range. -/
def pyLowerChar (c : Char) : Char :=
  if 'A' ≤ c ∧ c ≤ 'Z' then Char.ofNat (c.toNat + 32) else c

/-- Python `str.lower()` (ASCII range, which covers every use in the repo). -/
def pyLower (s : String) : String := String.mk (s.toList.map pyLowerChar)

/-- Characters removed by Python `str.strip()` with no argument (ASCII part). -/
def pyIsSpace (c : Char) : Bool :=
  c = ' ' || c = '\t' || c = '\n' || c = '\x0d' || c = '\x0b' || c = '\x0c'

/-- Python `str.strip()`: remove leading and trailing whitespace. -/
def pyStrip (s : String) : String :=
  String.mk (((s.toList.dropWhile pyIsSpace).reverse.dropWhile pyIsSpace).reverse)

/-- The Python substring test `sub in s`: `sub` occurs contiguously in `s`. -/
def pyContains (s sub : String) : Bool := decide (sub.toList <:+: s.toList)

namespace TeachAssist

/-!
`determine_action` is byte-identical in `app_kb.py` (lines 163-179),
`app_kb_mem.py` (lines 295-310) and `streamlit_app.py` (lines 281-297).
The single external effect — `agent.tool.use_llm(...)` — is modelled by
passing in `reply`, the value of `str(result)` for that call.
-/

/-- Function `determine_action(query)` of `app_kb.py` lines 163-179, as a function of
the classifier reply `str(result)`.  The code computes
`action_text = str(result).lower().strip()` and returns `"teacher"` when
`"teacher" in action_text`, else `"knowledgebase"`. -/
def determine_action (reply : String) : String :=
  let action_text := pyStrip (pyLower reply)
  if pyContains action_text "teacher" then "teacher" else "knowledgebase"

end TeachAssist

/-- C1: `determine_action` returns "teacher" iff the lowercased,
whitespace-stripped string form of the classifier reply contains the
substring "teacher", and returns "knowledgebase" in every other case;
there is no further fallback or tie-break. -/
theorem TeachAssist.determine_action_spec (reply : String) :
    (TeachAssist.determine_action reply = "teacher" ↔
      pyContains (pyStrip (pyLower reply)) "teacher" = true) ∧
    (TeachAssist.determine_action reply = "knowledgebase" ↔
      ¬ pyContains (pyStrip (pyLower reply)) "teacher" = true) := by
  unfold TeachAssist.determine_action
  constructor <;> dsimp only <;> split <;> simp_all

namespace TeachAssist

/-- Constant `KB_ACTION_SYSTEM_PROMPT` of `app_kb.py` lines 63-82 (identical in
`app_kb_mem.py` and `streamlit_app.py`). -/
def KB_ACTION_SYSTEM_PROMPT : String :=
  "\nYou are a knowledge base assistant focusing ONLY on classifying user queries.\nYour task is to determine whether a user query requires STORING information to a knowledge base\nor RETRIEVING information from a knowledge base.\n\nReply with EXACTLY ONE WORD - either \"store\" or \"retrieve\".\nDO NOT include any explanations or other text.\n\nExamples:\n- \"Remember that my birthday is July 4\" -> \"store\"\n- \"What's my birthday?\" -> \"retrieve\"\n- \"The capital of France is Paris\" -> \"store\"\n- \"What is the capital of France?\" -> \"retrieve\"\n- \"My name is John\" -> \"store\" \n- \"Who am I?\" -> \"retrieve\"\n- \"I live in Seattle\" -> \"store\"\n- \"Where do I live?\" -> \"retrieve\"\n\nOnly respond with \"store\" or \"retrieve\" - no explanation, prefix, or any other text.\n"

/-- Constant `ANSWER_SYSTEM_PROMPT` of `app_kb.py` lines 85-115.  Its exact
text plays no role in any claim; it is carried verbatim in the effect trace. -/
def ANSWER_SYSTEM_PROMPT : String :=
  "\nYou are a helpful knowledge assistant that provides clear, concise answers \nbased on information retrieved from a knowledge base.\n\nThe information from the knowledge base contains document IDs, titles, \ncontent previews and relevance scores. Focus on the actual content and \nignore the metadata.\n\nYour responses should:\n1. Be direct and to the point\n2. Not mention the source of information (like document IDs or scores)\n3. Not include any metadata or technical details\n4. Be conversational but brief\n5. Acknowledge when information is conflicting or missing\n6. Begin the response with \n\n\nWhen analyzing the knowledge base results:\n- Higher scores (closer to 1.0) indicate more relevant results\n- Look for patterns across multiple results\n- Prioritize information from results with higher scores\n- Ignore any JSON formatting or technical elements in the content\n\nExample response for conflicting information:\n\"Based on my records, I have both July 4 and August 8 listed as your birthday. Could you clarify which date is correct?\"\n\nExample response for clear information:\n\"Your birthday is on July 4.\"\n\nExample response for missing information:\n\"I don't have any information about your birthday stored.\"\n"

/-- External calls made by `run_kb_agent`, in program order. -/
inductive KBEffect
  | useLlm (prompt system_prompt : String)
  | memoryStore (content : String)
  | memoryRetrieve (query : String) (min_score : ℚ) (max_results : ℕ)
  deriving Repr, DecidableEq

/-- Replies of the external services consumed by `run_kb_agent`:
`kbActionReply` is `str(result)` of the store-vs-retrieve `use_llm` call,
`retrieveResult` is `str(result)` of the `memory(action="retrieve", ...)` call,
and `answerReply` is `str(answer)` of the answering `use_llm` call. -/
structure KBEnv where
  kbActionReply : String
  retrieveResult : String
  answerReply : String
  deriving Repr, DecidableEq

/-- The store-vs-retrieve classification call of `run_kb_agent`
(`app_kb.py` lines 186-189). -/
def kbClassifyCall (query : String) : KBEffect :=
  .useLlm ("Query: " ++ query) KB_ACTION_SYSTEM_PROMPT

/-- The answering `use_llm` call of `run_kb_agent` (`app_kb.py` lines 211-214). -/
def kbAnswerCall (query result_str : String) : KBEffect :=
  .useLlm ("User question: \"" ++ query ++ "\"\n\nInformation from knowledge base:\n"
      ++ result_str
      ++ "\n\nStart your answer with newline character and provide a helpful answer based on this information:")
    ANSWER_SYSTEM_PROMPT

/-- Function `run_kb_agent(query)` of `app_kb.py` lines 181-216 (byte-identical in
`app_kb_mem.py` lines 312-347), returning the reply string together with the
trace of external calls.  `min_score=0.4` and `max_results=9` are the literal
arguments of the retrieve call. -/
def run_kb_agent (env : KBEnv) (query : String) : String × List KBEffect :=
  let action_text := pyStrip (pyLower env.kbActionReply)
  if pyContains action_text "store" then
    ("I've stored this information.", [kbClassifyCall query, .memoryStore query])
  else
    let result_str := env.retrieveResult
    (env.answerReply,
      [kbClassifyCall query, .memoryRetrieve query (0.4 : ℚ) 9,
        kbAnswerCall query result_str])

end TeachAssist

/-- C2: for every query routed to the knowledge base, `run_kb_agent` makes a
further LLM classification call (the first entry of its trace) and takes
exactly one of two branches: when the lowercased, stripped reply contains
"store" it stores the full query text and returns exactly
"I've stored this information."; in every other case it retrieves with
`min_score` 0.4 and `max_results` 9 and returns the string form of the
LLM-generated answer. -/
theorem TeachAssist.run_kb_agent_spec (env : TeachAssist.KBEnv) (query : String) :
    (pyContains (pyStrip (pyLower env.kbActionReply)) "store" = true →
      TeachAssist.run_kb_agent env query =
        ("I've stored this information.",
          [TeachAssist.kbClassifyCall query, .memoryStore query])) ∧
    (pyContains (pyStrip (pyLower env.kbActionReply)) "store" = false →
      TeachAssist.run_kb_agent env query =
        (env.answerReply,
          [TeachAssist.kbClassifyCall query,
            .memoryRetrieve query (0.4 : ℚ) 9,
            TeachAssist.kbAnswerCall query env.retrieveResult])) := by
  unfold TeachAssist.run_kb_agent
  constructor <;> intro h <;> simp [h]

/-- C2 witness: concrete instances of both branches of `run_kb_agent_spec`. -/
theorem TeachAssist.run_kb_agent_spec_witness :
    (TeachAssist.run_kb_agent ⟨" Store ", "kb", "ans"⟩ "q" =
      ("I've stored this information.",
        [TeachAssist.kbClassifyCall "q", .memoryStore "q"])) ∧
    (TeachAssist.run_kb_agent ⟨"retrieve", "kb", "ans"⟩ "q" =
      ("ans",
        [TeachAssist.kbClassifyCall "q", .memoryRetrieve "q" (0.4 : ℚ) 9,
          TeachAssist.kbAnswerCall "q" "kb"])) :=
  ⟨(TeachAssist.run_kb_agent_spec ⟨" Store ", "kb", "ans"⟩ "q").1 (by decide),
   (TeachAssist.run_kb_agent_spec ⟨"retrieve", "kb", "ans"⟩ "q").2 (by decide)⟩

namespace TeachAssist

/-- One entry of `st.session_state.messages`: a dict with keys "role" and
"content". -/
structure Msg where
  role : String
  content : String
  deriving Repr, DecidableEq

/-- Outcome of a Python expression: normal value, or a raised exception
carrying `str(e)`.  Only exceptions caught by `except Exception` are
modelled; the handlers in the apps catch exactly that class. -/
abbrev PyResult (α : Type) := Except String α

/-- Query-handling block of `app_kb.py` lines 221-261, as a function of the
previous history, the submitted query, and the outcome of the `try` body
(`determine_action` plus the dispatched agent call; its normal value is the
`content` string).  `app_kb_mem.py` lines 397-445 has the same handler
shape: append the user message; then append one assistant message holding
either the agent reply or `"An error occurred: " + str(e)`.  The Streamlit
display calls (`st.markdown`, `st.chat_message`, spinners) carry no state
and are not modelled. -/
def app_kb_handle_query (messages : List Msg) (query : String)
    (tryOutcome : PyResult String) : List Msg :=
  let messages := messages ++ [⟨"user", query⟩]
  match tryOutcome with
  | .ok content => messages ++ [⟨"assistant", content⟩]
  | .error e => messages ++ [⟨"assistant", "An error occurred: " ++ e⟩]

end TeachAssist

/-- C9: in `app_kb.py` and `app_kb_mem.py`, every submitted query appends
exactly two entries to the chat history, in order: a "user" message holding
the query, then an "assistant" message holding the agent response on
success, or "An error occurred: " followed by the exception text on
failure; the previous history is preserved unchanged and nothing else is
added. -/
theorem TeachAssist.app_kb_handle_query_spec (messages : List TeachAssist.Msg)
    (query : String) (tryOutcome : TeachAssist.PyResult String) :
    TeachAssist.app_kb_handle_query messages query tryOutcome =
      messages ++
        [⟨"user", query⟩,
         ⟨"assistant",
           match tryOutcome with
           | .ok content => content
           | .error e => "An error occurred: " ++ e⟩] ∧
    (TeachAssist.app_kb_handle_query messages query tryOutcome).length =
      messages.length + 2 := by
  cases tryOutcome <;> simp [TeachAssist.app_kb_handle_query]

namespace TeachAssist

/-- Observable effects of the `streamlit_app.py` query-handling block:
placeholder renderings and agent invocations. -/
inductive AppEffect
  | displayMarkdown (text : String)
  | displayError (text : String)
  | invokeTeacherAgent (query : String)
  | invokeKbAgent (query : String)
  deriving Repr, DecidableEq

/-- External outcomes driving one run of the `streamlit_app.py` query block
(non-memory-agent path): the outcome of `determine_action` (its classifier
reply on success), the outcome of the dispatched agent call inside the
`try` body, and the outcome of the duplicated dispatch that the first
`except` handler executes. -/
structure StreamlitEnv where
  actionOutcome : PyResult String
  firstCallOutcome : PyResult String
  handlerCallOutcome : PyResult String
  deriving Repr

/-- Result of one run of the query block: the final chat history, the effect
trace, and an exception escaping the whole `try` statement, if any. -/
structure HandlerRun where
  messages : List Msg
  effects : List AppEffect
  propagated : Option String
  deriving Repr, DecidableEq

/-- Query-handling block of `streamlit_app.py` lines 362-419 (the
non-memory-agent path).  The `try` body determines the action and invokes
the teacher or knowledge-base agent.  The first `except Exception` clause
(line 394) displays and records `"Error: " + str(e)` — and then, lines
397-414, runs a duplicated copy of the dispatch code, re-invoking the
agent inside the handler.  An exception raised inside that handler is not
caught by the second `except Exception` clause at line 416 (a `try`
statement's later handlers do not guard its earlier handlers), so it
escapes; likewise, when `determine_action` itself raised, the handler's
`if action == "teacher"` reads an unbound local and raises `NameError`. -/
def streamlit_handle_query (messages : List Msg) (query : String)
    (env : StreamlitEnv) : HandlerRun :=
  let messages := messages ++ [⟨"user", query⟩]
  match env.actionOutcome with
  | .error e =>
      { messages := messages ++ [⟨"assistant", "Error: " ++ e⟩],
        effects := [.displayError ("Error: " ++ e)],
        propagated := some "NameError: name 'action' is not defined" }
  | .ok reply =>
      let action := determine_action reply
      let callEff : AppEffect :=
        if action = "teacher" then .invokeTeacherAgent query else .invokeKbAgent query
      match env.firstCallOutcome with
      | .ok content =>
          { messages := messages ++ [⟨"assistant", content⟩],
            effects := [callEff, .displayMarkdown content],
            propagated := none }
      | .error e =>
          let messages := messages ++ [⟨"assistant", "Error: " ++ e⟩]
          match env.handlerCallOutcome with
          | .ok content =>
              { messages := messages ++ [⟨"assistant", content⟩],
                effects := [callEff, .displayError ("Error: " ++ e), callEff,
                  .displayMarkdown content],
                propagated := none }
          | .error e2 =>
              { messages := messages,
                effects := [callEff, .displayError ("Error: " ++ e), callEff],
                propagated := some e2 }

end TeachAssist

/-- C3 (code bug): in `streamlit_app.py`, when the teacher-agent call raises,
the `except` handler does not merely record and display the error — it
re-invokes the agent call (the effect trace contains `invokeTeacherAgent`
twice) and, when the re-invocation succeeds, appends a second assistant
message for the same query. -/
theorem TeachAssist.streamlit_except_reinvokes_agent :
    TeachAssist.streamlit_handle_query [] "hi" ⟨.ok "teacher", .error "boom", .ok "answer"⟩ =
      { messages := [⟨"user", "hi"⟩, ⟨"assistant", "Error: boom"⟩, ⟨"assistant", "answer"⟩],
        effects := [.invokeTeacherAgent "hi", .displayError "Error: boom",
          .invokeTeacherAgent "hi", .displayMarkdown "answer"],
        propagated := none } := by
  decide

/-- The Python prefix test `s.startswith(pre)`. -/
def pyStartsWith (s pre : String) : Bool := decide (pre.toList <+: s.toList)

/-- Helper: a string prefix survives appending an arbitrary suffix. -/
theorem pyStartsWith_append_of_prefix (p s e : String)
    (h : p.toList <+: s.toList) : pyStartsWith (s ++ e) p = true := by
  simp only [pyStartsWith, decide_eq_true_eq]
  have hd : (s ++ e).toList = s.toList ++ e.toList := rfl
  rw [hd]
  exact List.IsPrefix.trans h (List.prefix_append _ _)

namespace InteractiveLoop

/-!
The interactive REPLs of `strands_weather_agent_example/weather_forecaster.py`
lines 123-139 and `external_api_examples/strands_telegram_agent.py` lines
150-166 have the same control structure:

    while True:
        try:
            user_input = input("\n> ")
            if user_input.lower() in [ "exit", "quit" ]:
                print("\nGoodbye! 👋"); break
            response = agent(user_input)
        except KeyboardInterrupt:
            print("\n\nExecution interrupted. Exiting..."); break
        except Exception as e:
            print(f"\nAn error occurred: {str(e)}")
            print("Please try a different request.")

One loop iteration is driven by an event: either `input()` returns a line
(whose handling then ends normally, raises an `Exception`, or raises
`KeyboardInterrupt`), or `input()` itself raises `KeyboardInterrupt`.
`runLoop` consumes a finite script of events and returns the strings passed
to `print` by the loop itself, together with the stop cause (`none` while
the script is exhausted with the loop still running).
-/

/-- How the body handles one accepted input line. -/
inductive AgentOutcome
  | ok
  | exn (e : String)
  | interrupt
  deriving Repr, DecidableEq

/-- One loop iteration's external behaviour. -/
inductive LoopEvent
  | line (input : String) (outcome : AgentOutcome)
  | interruptAtInput
  deriving Repr, DecidableEq

/-- Why the loop stopped. -/
inductive StopReason
  | exitCommand
  | keyboardInterrupt
  deriving Repr, DecidableEq

/-- The test `user_input.lower() in [ "exit", "quit" ]`. -/
def exitRequested (s : String) : Bool :=
  pyLower s = "exit" || pyLower s = "quit"

/-- The interactive loop on a finite script of events. -/
def runLoop : List LoopEvent → List String × Option StopReason
  | [] => ([], none)
  | .interruptAtInput :: _ =>
      (["\n\nExecution interrupted. Exiting..."], some .keyboardInterrupt)
  | .line s o :: rest =>
      if exitRequested s then
        (["\nGoodbye! 👋"], some .exitCommand)
      else
        match o with
        | .ok => runLoop rest
        | .interrupt =>
            (["\n\nExecution interrupted. Exiting..."], some .keyboardInterrupt)
        | .exn e =>
            let r := runLoop rest
            (("\nAn error occurred: " ++ e) :: "Please try a different request." :: r.1,
              r.2)

end InteractiveLoop

/-- C5: in the weather-forecaster and Telegram REPLs, an `Exception` raised
while handling a non-exit input prints a message that is, after the
leading blank line, a line beginning with "An error occurred:", and the
loop continues with the next input (same remaining output and stop cause
as the rest of the script); and the loop stops only when some consumed
input lowercases to "exit"/"quit" or on a `KeyboardInterrupt`. -/
theorem InteractiveLoop.runLoop_spec (events : List InteractiveLoop.LoopEvent) :
    (∀ s e rest, events = .line s (.exn e) :: rest →
      InteractiveLoop.exitRequested s = false →
      InteractiveLoop.runLoop events =
        (("\nAn error occurred: " ++ e) :: "Please try a different request." ::
            (InteractiveLoop.runLoop rest).1,
          (InteractiveLoop.runLoop rest).2) ∧
      ∃ t, "\nAn error occurred: " ++ e = "\n" ++ t ∧
        pyStartsWith t "An error occurred:" = true) ∧
    ((InteractiveLoop.runLoop events).2 = some .exitCommand →
      ∃ s o, .line s o ∈ events ∧ InteractiveLoop.exitRequested s = true) ∧
    ((InteractiveLoop.runLoop events).2 = some .keyboardInterrupt →
      (.interruptAtInput ∈ events ∨ ∃ s, .line s .interrupt ∈ events)) := by
  refine ⟨?_, ?_⟩
  · rintro s e rest rfl hexit
    refine ⟨by simp [InteractiveLoop.runLoop, hexit], ?_⟩
    refine ⟨"An error occurred: " ++ e, ?_, ?_⟩
    · have h1 : ("\nAn error occurred: " : String) = "\n" ++ "An error occurred: " := by
        decide
      rw [h1]; cases e; rfl
    · exact pyStartsWith_append_of_prefix _ "An error occurred: " e (by decide)
  · induction events with
    | nil => simp [InteractiveLoop.runLoop]
    | cons ev rest ih =>
      cases ev with
      | interruptAtInput =>
        refine ⟨?_, ?_⟩ <;> intro h
        · simp [InteractiveLoop.runLoop] at h
        · exact Or.inl (List.mem_cons_self _ _)
      | line s o =>
        by_cases hexit : InteractiveLoop.exitRequested s = true
        · refine ⟨?_, ?_⟩ <;> intro h
          · exact ⟨s, o, List.mem_cons_self _ _, hexit⟩
          · simp [InteractiveLoop.runLoop, hexit] at h
        · have hexit' : InteractiveLoop.exitRequested s = false := by
            simpa using hexit
          cases o with
          | ok =>
            refine ⟨?_, ?_⟩ <;> intro h
            · have h' : (InteractiveLoop.runLoop rest).2 = some .exitCommand := by
                simpa [InteractiveLoop.runLoop, hexit'] using h
              obtain ⟨s', o', hmem, hreq⟩ := ih.1 h'
              exact ⟨s', o', List.mem_cons_of_mem _ hmem, hreq⟩
            · have h' : (InteractiveLoop.runLoop rest).2 = some .keyboardInterrupt := by
                simpa [InteractiveLoop.runLoop, hexit'] using h
              rcases ih.2 h' with hmem | ⟨s', hmem⟩
              · exact Or.inl (List.mem_cons_of_mem _ hmem)
              · exact Or.inr ⟨s', List.mem_cons_of_mem _ hmem⟩
          | exn e =>
            refine ⟨?_, ?_⟩ <;> intro h
            · have h' : (InteractiveLoop.runLoop rest).2 = some .exitCommand := by
                simpa [InteractiveLoop.runLoop, hexit'] using h
              obtain ⟨s', o', hmem, hreq⟩ := ih.1 h'
              exact ⟨s', o', List.mem_cons_of_mem _ hmem, hreq⟩
            · have h' : (InteractiveLoop.runLoop rest).2 = some .keyboardInterrupt := by
                simpa [InteractiveLoop.runLoop, hexit'] using h
              rcases ih.2 h' with hmem | ⟨s', hmem⟩
              · exact Or.inl (List.mem_cons_of_mem _ hmem)
              · exact Or.inr ⟨s', List.mem_cons_of_mem _ hmem⟩
          | interrupt =>
            refine ⟨?_, ?_⟩ <;> intro h
            · simp [InteractiveLoop.runLoop, hexit'] at h
            · exact Or.inr ⟨s, List.mem_cons_self _ _⟩

/-- C5 witness: the error branch and both stop causes at concrete scripts. -/
theorem InteractiveLoop.runLoop_spec_witness :
    (InteractiveLoop.runLoop [.line "weather?" (.exn "boom"), .line "exit" .ok] =
      ("\nAn error occurred: boom" :: "Please try a different request." ::
          (InteractiveLoop.runLoop [.line "exit" .ok]).1,
        (InteractiveLoop.runLoop [.line "exit" .ok]).2) ∧
      ∃ t, "\nAn error occurred: " ++ "boom" = "\n" ++ t ∧
        pyStartsWith t "An error occurred:" = true) ∧
    (∃ s o, InteractiveLoop.LoopEvent.line s o ∈
        [InteractiveLoop.LoopEvent.line "Exit" .ok] ∧
      InteractiveLoop.exitRequested s = true) :=
  ⟨(InteractiveLoop.runLoop_spec [.line "weather?" (.exn "boom"), .line "exit" .ok]).1
      "weather?" "boom" [.line "exit" .ok] rfl (by decide),
   (InteractiveLoop.runLoop_spec [.line "Exit" .ok]).2.1 (by decide)⟩

namespace MultiMonitor

/-!
Model of `nova_act_examples/multi_monitor.py`.  A browser session is five
external calls in sequence: entering `with NovaAct(...)`, two `n.act`
calls used only for their effect, and three `n.act` calls whose
`.response` (an optional string) is read.  Each call either returns or
raises an `Exception` (caught by the `except Exception` at line 49;
`str(e)` is only printed).  An exception while closing the browser or
printing leaves the result dict unchanged, so it needs no own field.
-/

/-- A step used only for its effect: `none` = returned normally,
`some e` = raised with message `e`. -/
abbrev EffectStep := Option String

/-- A step whose `.response` is read: raises, or returns `Option String`. -/
abbrev RespStep := Except String (Option String)

/-- Behaviour of one isolated browser session. -/
structure BrowserSession where
  start : EffectStep
  search : EffectStep
  click : EffectStep
  price : RespStep
  rating : RespStep
  size : RespStep
  deriving Repr

/-- The Python expression `x or "N/A"`: `None` and `""` are falsy. -/
def pyOrNA : Option String → String
  | none => "N/A"
  | some s => if s = "" then "N/A" else s

/-- The `results` dict of `check_monitor_on_amazon`: it has exactly the keys
`model`, `price`, `rating`, `size` (line 18 of `multi_monitor.py`). -/
structure MonitorResult where
  model : String
  price : String
  rating : String
  size : String
  deriving Repr, DecidableEq

/-- Function `check_monitor_on_amazon(monitor_model, headless)` of
`multi_monitor.py` lines 12-52.  The dict starts as all-"N/A"; each field
is overwritten with `result.response or "N/A"` as the session advances;
any raise jumps to the handler, which prints and falls through to
`return results`.  The function is total: no exception propagates. -/
def check_monitor_on_amazon (monitor_model : String) (n : BrowserSession) :
    MonitorResult :=
  match n.start with
  | some _ => ⟨monitor_model, "N/A", "N/A", "N/A"⟩
  | none =>
  match n.search with
  | some _ => ⟨monitor_model, "N/A", "N/A", "N/A"⟩
  | none =>
  match n.click with
  | some _ => ⟨monitor_model, "N/A", "N/A", "N/A"⟩
  | none =>
  match n.price with
  | .error _ => ⟨monitor_model, "N/A", "N/A", "N/A"⟩
  | .ok pr =>
  match n.rating with
  | .error _ => ⟨monitor_model, pyOrNA pr, "N/A", "N/A"⟩
  | .ok ra =>
  match n.size with
  | .error _ => ⟨monitor_model, pyOrNA pr, pyOrNA ra, "N/A"⟩
  | .ok sz => ⟨monitor_model, pyOrNA pr, pyOrNA ra, pyOrNA sz⟩

/-- The price extraction as the session reaches it: `none` when an earlier
step raised, otherwise the step's own outcome. -/
def priceAttempt (n : BrowserSession) : Option RespStep :=
  match n.start, n.search, n.click with
  | none, none, none => some n.price
  | _, _, _ => none

/-- The rating extraction as the session reaches it. -/
def ratingAttempt (n : BrowserSession) : Option RespStep :=
  match priceAttempt n with
  | some (.ok _) => some n.rating
  | _ => none

/-- The size extraction as the session reaches it. -/
def sizeAttempt (n : BrowserSession) : Option RespStep :=
  match ratingAttempt n with
  | some (.ok _) => some n.size
  | _ => none

/-- One field as the claim describes it: the field holds the extracted
response, or the placeholder "N/A" in case the extraction was not reached
or returned None. -/
def fieldAsClaimed (value : String) (attempt : Option RespStep) : Prop :=
  (∃ s, attempt = some (.ok (some s)) ∧ value = s) ∨
  (value = "N/A" ∧ ∀ s, attempt ≠ some (.ok (some s)))

/-- Claim C4 as stated, at one model string and one session behaviour. -/
def claimC4 (model : String) (n : BrowserSession) : Prop :=
  let r := check_monitor_on_amazon model n
  r.model = model ∧
    fieldAsClaimed r.price (priceAttempt n) ∧
    fieldAsClaimed r.rating (ratingAttempt n) ∧
    fieldAsClaimed r.size (sizeAttempt n)

/-- One field as the code actually behaves: "N/A" also replaces an extracted
empty string, because Python `or` tests truthiness, not `is None`. -/
def fieldAmended (value : String) (attempt : Option RespStep) : Prop :=
  match attempt with
  | some (.ok (some s)) => if s = "" then value = "N/A" else value = s
  | _ => value = "N/A"

/-- Helper: a recorded field always matches the amended description. -/
theorem fieldAmended_pyOrNA (r : Option String) :
    fieldAmended (pyOrNA r) (some (.ok r)) := by
  cases r with
  | none => simp [fieldAmended, pyOrNA]
  | some s => by_cases hs : s = "" <;> simp [fieldAmended, pyOrNA, hs]

end MultiMonitor

/-- C4 counterexample: when the price extraction is reached and returns the
empty string (which is not `None`), the recorded price is "N/A", not the
extracted response — the claim as stated fails at this session. -/
theorem MultiMonitor.claimC4_counterexample :
    ¬ MultiMonitor.claimC4 "LG 27GP850-B 27-inch Ultragear Gaming Monitor"
        ⟨none, none, none, .ok (some ""), .ok (some "4.6"), .ok (some "27 inches")⟩ := by
  intro h
  have hp := h.2.1
  rcases hp with ⟨s, hs, hv⟩ | ⟨-, hall⟩
  · have hs' : "" = s := by
      simpa [MultiMonitor.priceAttempt] using hs
    exact absurd (hs'.trans hv.symm) (by decide)
  · exact hall "" (by simp [MultiMonitor.priceAttempt])

/-- C4 (amended): `check_monitor_on_amazon` never propagates an exception and
always returns a dict with exactly the keys model, price, rating, size;
`model` is the input string, and each of price, rating, size holds the
extracted response, or "N/A" when the extraction was not reached, raised,
or returned None or an empty string (Python falsiness). -/
theorem MultiMonitor.check_monitor_on_amazon_spec (model : String)
    (n : MultiMonitor.BrowserSession) :
    (MultiMonitor.check_monitor_on_amazon model n).model = model ∧
    MultiMonitor.fieldAmended (MultiMonitor.check_monitor_on_amazon model n).price
      (MultiMonitor.priceAttempt n) ∧
    MultiMonitor.fieldAmended (MultiMonitor.check_monitor_on_amazon model n).rating
      (MultiMonitor.ratingAttempt n) ∧
    MultiMonitor.fieldAmended (MultiMonitor.check_monitor_on_amazon model n).size
      (MultiMonitor.sizeAttempt n) := by
  obtain ⟨st, se, cl, pr, ra, sz⟩ := n
  cases st <;> cases se <;> cases cl <;> cases pr <;> cases ra <;> cases sz <;>
    refine ⟨rfl, ?_, ?_, ?_⟩ <;>
    simp only [MultiMonitor.check_monitor_on_amazon, MultiMonitor.priceAttempt,
      MultiMonitor.ratingAttempt, MultiMonitor.sizeAttempt] <;>
    first
      | exact MultiMonitor.fieldAmended_pyOrNA _
      | simp [MultiMonitor.fieldAmended]

namespace MultiMonitor

/-- The hard-coded list of `parallel_monitor_comparison`
(`multi_monitor.py` lines 56-61). -/
def monitor_models : List String :=
  ["Dell S2722QC 27-inch 4K USB-C Monitor",
   "LG 27GP850-B 27-inch Ultragear Gaming Monitor",
   "Samsung Odyssey G7 32-inch Gaming Monitor"]

/-- The expression `max_workers = min(3, len(monitor_models))` of
`multi_monitor.py` line 66. -/
def parallel_max_workers : ℕ := min 3 monitor_models.length

end MultiMonitor

namespace VideoGameResearch

/-- The expression `max_workers = max(1, min(total_games, max_threads))` of
`streamlit_examples/video_game_research_st.py` line 196.  Python integers
are modelled by `ℤ`; `run_game_search` only reaches this line with
`total_games = len(top_games) ≥ 1`, but `max_threads` is an arbitrary
parameter (the Streamlit slider restricts it to 1..10, the function does
not). -/
def run_search_max_workers (total_games max_threads : ℤ) : ℤ :=
  max 1 (min total_games max_threads)

end VideoGameResearch

/-- C6 counterexample: at `max_threads = 0` (one game found) the computed
worker count is 1, which exceeds `max_threads` — "at most max_threads for
every input" fails. -/
theorem VideoGameResearch.run_search_max_workers_counterexample :
    VideoGameResearch.run_search_max_workers 1 0 = 1 ∧
      ¬ VideoGameResearch.run_search_max_workers 1 0 ≤ 0 := by
  constructor <;> decide

/-- C6 (amended): `parallel_monitor_comparison` uses
`min(3, len(monitor_models))`, which is exactly 3 for the hard-coded
three-model list, and `run_game_search` uses
`max(1, min(total_games, max_threads))`, which for every input is at
least 1, and is at most `max_threads` whenever `max_threads ≥ 1`. -/
theorem VideoGameResearch.max_workers_spec :
    (MultiMonitor.parallel_max_workers = min 3 MultiMonitor.monitor_models.length ∧
      MultiMonitor.parallel_max_workers = 3) ∧
    ∀ total_games max_threads : ℤ,
      1 ≤ VideoGameResearch.run_search_max_workers total_games max_threads ∧
      (1 ≤ max_threads →
        VideoGameResearch.run_search_max_workers total_games max_threads ≤ max_threads) := by
  refine ⟨⟨rfl, by decide⟩, ?_⟩
  intro total_games max_threads
  constructor
  · exact le_max_left _ _
  · intro h
    have hmin : min total_games max_threads ≤ max_threads := min_le_right _ _
    exact max_le h hmin

/-- C6 witness: both worker-count bounds at five games found and three
allowed threads. -/
theorem VideoGameResearch.max_workers_spec_witness :
    1 ≤ VideoGameResearch.run_search_max_workers 5 3 ∧
      (1 ≤ (3 : ℤ) →
        VideoGameResearch.run_search_max_workers 5 3 ≤ 3) :=
  VideoGameResearch.max_workers_spec.2 5 3

/-!
JSON values, as produced by `json.dump`/`json.load` and pydantic
`model_dump`/`model_validate` in `video_game_research_st.py` and
`nova_act_mcp_server.py`.  Files are modelled at the JSON-value level:
CPython's `json.dump` followed by `json.load` is the identity on these
values (numbers in this repository's snapshots are ints and floats, which
`repr` round-trips exactly), so a written file is represented by the value
itself.
-/

/-- A JSON value.  Numbers are modelled by `ℚ`. -/
inductive Json
  | null
  | str (s : String)
  | num (q : ℚ)
  | bool (b : Bool)
  | arr (elems : List Json)
  | obj (fields : List (String × Json))

/-- Dictionary lookup `d[k]` / `d.get(k)` on an object's field list. -/
def lookupField : List (String × Json) → String → Option Json
  | [], _ => none
  | (k', v) :: rest, k => if k' = k then some v else lookupField rest k

/-- Dictionary lookup on a JSON value (`none` on non-objects and missing keys). -/
def Json.lookup : Json → String → Option Json
  | .obj fields, k => lookupField fields k
  | _, _ => none

/-- Dictionary assignment `d[k] = v` on an object's field list: replace the
key in place, or append it. -/
def setField : List (String × Json) → String → Json → List (String × Json)
  | [], k, v => [(k, v)]
  | (k', v') :: rest, k, v =>
      if k' = k then (k, v) :: rest else (k', v') :: setField rest k v

/-- Dictionary assignment on a JSON value (identity on non-objects, which
the modelled code never assigns into). -/
def Json.set : Json → String → Json → Json
  | .obj fields, k, v => .obj (setField fields k v)
  | j, _, _ => j

/-- Python truthiness of a JSON value. -/
def Json.truthy : Json → Bool
  | .null => false
  | .str s => decide (s ≠ "")
  | .num q => decide (q ≠ 0)
  | .bool b => b
  | .arr elems => !elems.isEmpty
  | .obj fields => !fields.isEmpty

namespace VideoGameResearch

/-- The pydantic model `GameInfo` of `video_game_research_st.py` lines 16-26:
`title` and `system` are required strings, every other field is optional
with default `None`.  The float field `rating` is modelled by `ℚ`. -/
structure GameInfo where
  title : String
  system : String
  release_date : Option String
  genre : Option String
  developer : Option String
  rating : Option ℚ
  description : Option String
  amazon_url : Option String
  amazon_price : Option String
  image_url : Option String
  deriving Repr, DecidableEq

/-- Serialisation of an optional string field (`None` becomes JSON null). -/
def optStrJson : Option String → Json
  | none => .null
  | some s => .str s

/-- Serialisation of the optional float field. -/
def optNumJson : Option ℚ → Json
  | none => .null
  | some q => .num q

/-- Pydantic `GameInfo.model_dump()` (and the value `model_dump_json`
serialises): an object holding every field, optional fields as null. -/
def GameInfo.model_dump (g : GameInfo) : Json :=
  .obj [("title", .str g.title), ("system", .str g.system),
        ("release_date", optStrJson g.release_date),
        ("genre", optStrJson g.genre),
        ("developer", optStrJson g.developer),
        ("rating", optNumJson g.rating),
        ("description", optStrJson g.description),
        ("amazon_url", optStrJson g.amazon_url),
        ("amazon_price", optStrJson g.amazon_price),
        ("image_url", optStrJson g.image_url)]

/-- Validation of a required string field. -/
def asStr : Option Json → Option String
  | some (.str s) => some s
  | _ => none

/-- Validation of an optional string field: an absent key or null is `None`;
a non-string, non-null value is a validation error. -/
def asOptStr : Option Json → Option (Option String)
  | none => some none
  | some .null => some none
  | some (.str s) => some (some s)
  | _ => none

/-- Validation of the optional float field. -/
def asOptNum : Option Json → Option (Option ℚ)
  | none => some none
  | some .null => some none
  | some (.num q) => some (some q)
  | _ => none

/-- Pydantic `GameInfo.model_validate(g)`: `none` models a raised
`ValidationError`. -/
def GameInfo.model_validate (j : Json) : Option GameInfo := do
  let title ← asStr (j.lookup "title")
  let system ← asStr (j.lookup "system")
  let release_date ← asOptStr (j.lookup "release_date")
  let genre ← asOptStr (j.lookup "genre")
  let developer ← asOptStr (j.lookup "developer")
  let rating ← asOptNum (j.lookup "rating")
  let description ← asOptStr (j.lookup "description")
  let amazon_url ← asOptStr (j.lookup "amazon_url")
  let amazon_price ← asOptStr (j.lookup "amazon_price")
  let image_url ← asOptStr (j.lookup "image_url")
  pure ⟨title, system, release_date, genre, developer, rating, description,
    amazon_url, amazon_price, image_url⟩

/-- Helper: validating a dumped optional string recovers it. -/
theorem asOptStr_optStrJson (x : Option String) :
    asOptStr (some (optStrJson x)) = some x := by
  cases x <;> rfl

/-- Helper: validating a dumped optional number recovers it. -/
theorem asOptNum_optNumJson (x : Option ℚ) :
    asOptNum (some (optNumJson x)) = some x := by
  cases x <;> rfl

/-- Helper: `model_validate` recovers every record `model_dump` produces. -/
theorem model_validate_model_dump (g : GameInfo) :
    GameInfo.model_validate (GameInfo.model_dump g) = some g := by
  obtain ⟨t, sys, rd, ge, dev, ra, de, au, ap, iu⟩ := g
  simp [GameInfo.model_dump, GameInfo.model_validate, Json.lookup, lookupField,
    asStr, asOptStr_optStrJson, asOptNum_optNumJson]

/-- The list comprehension `[GameInfo.model_validate(g) for g in ...]` of
`load_search_data`: all-or-nothing, a validation error raises. -/
def validateGames : List Json → Option (List GameInfo)
  | [] => some []
  | j :: rest =>
      match GameInfo.model_validate j with
      | none => none
      | some g =>
          match validateGames rest with
          | none => none
          | some gs => some (g :: gs)

/-- Helper: validating a dumped list of records recovers the list. -/
theorem validateGames_map_dump (l : List GameInfo) :
    validateGames (l.map GameInfo.model_dump) = some l := by
  induction l with
  | nil => rfl
  | cons g rest ih =>
    simp [validateGames, model_validate_model_dump, ih]

end VideoGameResearch

namespace VideoGameResearch

/-- Contents of a written file: a JSON document or captured screenshot bytes. -/
inductive FileData
  | json (j : Json)
  | screenshot

/-- Durable file-system effects.  Paths are segment lists, modelling
`os.path.join`. -/
inductive FsEffect
  | mkdir (path : List String)
  | write (path : List String) (data : FileData)

/-- The directory-name sanitisation
`game.title.replace(" ", "_").replace("/", "_").replace(":", "")` of
`video_game_research_st.py` lines 91-93.  All three patterns are single
characters, so the three `str.replace` calls map and delete individual
characters. -/
def sanitizeTitle (t : String) : String :=
  String.mk ((t.toList.map (fun c => if c = ' ' ∨ c = '/' then '_' else c)).filter
    (fun c => decide (c ≠ ':')))

/-- One game's Amazon browser session in `search_amazon_for_game`
(`video_game_research_st.py` lines 86-140).  `completedWrites` is how many
of the task's file-system effects happen before an exception aborts the
task (any value at least the full count means the task completes and its
future yields the updated game).  `url` is `n.page.url` at the extraction
point; `priceResp`/`descResp` are the parsed-response entries when present. -/
structure GameTask where
  completedWrites : ℕ
  url : String
  matches_schema : Bool
  priceResp : Option String
  descResp : Option String
  deriving Repr, DecidableEq

/-- Path `game_dir = os.path.join("game_searches", run_id, sanitised-title)`. -/
def game_dir (run_id : String) (g : GameInfo) : List String :=
  ["game_searches", run_id, sanitizeTitle g.title]

/-- The in-place mutation of the `game` record in `search_amazon_for_game`:
`amazon_url` is set from the page URL; when the extraction matched the
schema, `amazon_price` and `description` are overwritten by the parsed
entries that are present. -/
def updated_game (g : GameInfo) (t : GameTask) : GameInfo :=
  let g1 : GameInfo :=
    ⟨g.title, g.system, g.release_date, g.genre, g.developer, g.rating,
      g.description, some t.url, g.amazon_price, g.image_url⟩
  if t.matches_schema then
    let price := match t.priceResp with
      | some p => some p
      | none => g1.amazon_price
    let desc := match t.descResp with
      | some d => some d
      | none => g1.description
    ⟨g1.title, g1.system, g1.release_date, g1.genre, g1.developer, g1.rating,
      desc, g1.amazon_url, price, g1.image_url⟩
  else g1

/-- Every file-system effect a completing run of `search_amazon_for_game`
performs, in program order: make the game directory, write the two
screenshots, and — only when the extraction matched the schema — write
`game_data.json` with the updated record. -/
def search_amazon_all_effects (run_id : String) (g : GameInfo) (t : GameTask) :
    List FsEffect :=
  [.mkdir (game_dir run_id g),
   .write (game_dir run_id g ++ ["amazon_search.png"]) .screenshot,
   .write (game_dir run_id g ++ ["amazon_product.png"]) .screenshot] ++
  (if t.matches_schema then
    [.write (game_dir run_id g ++ ["game_data.json"])
      (.json (updated_game g t).model_dump)]
  else [])

/-- The effects `search_amazon_for_game` actually performs: an exception
(browser startup, an `act` call, a write) aborts the task, truncating the
effect sequence. -/
def search_amazon_effects (run_id : String) (g : GameInfo) (t : GameTask) :
    List FsEffect :=
  (search_amazon_all_effects run_id g t).take t.completedWrites

/-- Whether the game's future yields normally (`future.result()` in
`run_game_search`), i.e. the task ran to completion. -/
def taskSucceeds (run_id : String) (g : GameInfo) (t : GameTask) : Bool :=
  (search_amazon_all_effects run_id g t).length ≤ t.completedWrites

/-- External behaviour of one `run_game_search(system, headless,
max_threads, num_games)` run: the generated `run_id` and timestamp, the
games `find_top_games` returned, and each game's Amazon session, zipped
positionally. -/
structure RunEnv where
  run_id : String
  system : String
  num_games : ℤ
  max_threads : ℤ
  timestamp : String
  top_games : List GameInfo
  tasks : List GameTask

/-- The `search_params` dict (`video_game_research_st.py` lines 153-157). -/
def search_params_json (env : RunEnv) : Json :=
  .obj [("system", .str env.system), ("num_games", .num (env.num_games : ℚ)),
        ("max_threads", .num (env.max_threads : ℚ))]

/-- The `metadata` dict written to `metadata.json` (lines 159-166). -/
def metadata_json (env : RunEnv) : Json :=
  .obj [("run_id", .str env.run_id), ("timestamp", .str env.timestamp),
        ("search_params", search_params_json env)]

/-- The `detailed_games` list collected from the futures: the updated game
when the task completed, the original record otherwise (lines 204-222).
Completion order is nondeterministic; the model serialises it in
submission order, which the round-trip and frame claims do not depend on. -/
def detailed_games (env : RunEnv) : List GameInfo :=
  (env.top_games.zip env.tasks).map (fun p =>
    if taskSucceeds env.run_id p.1 p.2 then updated_game p.1 p.2 else p.1)

/-- The `results_json` dict written to `results.json` (lines 228-234). -/
def results_json (env : RunEnv) : Json :=
  .obj [("run_id", .str env.run_id),
        ("search_params", search_params_json env),
        ("games", .arr ((detailed_games env).map GameInfo.model_dump))]

/-- Every file-system effect of `run_game_search` (lines 144-240), in program
order: make the run directory and write `metadata.json`; then — unless
`find_top_games` found nothing, in which case the function returns early —
run the per-game Amazon tasks and finally write `results.json`. -/
def run_game_search_effects (env : RunEnv) : List FsEffect :=
  let search_dir := ["game_searches", env.run_id]
  [.mkdir search_dir, .write (search_dir ++ ["metadata.json"]) (.json (metadata_json env))] ++
  (if env.top_games.isEmpty then []
   else
     ((env.top_games.zip env.tasks).flatMap
        (fun p => search_amazon_effects env.run_id p.1 p.2)) ++
     [.write (search_dir ++ ["results.json"]) (.json (results_json env))])

/-- The claim's description of the durable state a run may produce: the two
run-level JSON snapshots, and per-game screenshots and `game_data.json`
under a subdirectory of the run directory; directories only for the run
directory and per-game subdirectories. -/
def allowedRunEffect (run_id : String) : FsEffect → Prop
  | .mkdir p => p = ["game_searches", run_id] ∨ ∃ d, p = ["game_searches", run_id, d]
  | .write p data =>
      (p = ["game_searches", run_id, "metadata.json"] ∧ ∃ j, data = .json j) ∨
      (p = ["game_searches", run_id, "results.json"] ∧ ∃ j, data = .json j) ∨
      (∃ d, (p = ["game_searches", run_id, d, "amazon_search.png"] ∨
             p = ["game_searches", run_id, d, "amazon_product.png"]) ∧
        data = .screenshot) ∨
      (∃ d j, p = ["game_searches", run_id, d, "game_data.json"] ∧ data = .json j)

/-- Helper: each per-game effect is of an allowed kind. -/
theorem search_amazon_effects_allowed (run_id : String) (g : GameInfo)
    (t : GameTask) (e : FsEffect) (he : e ∈ search_amazon_effects run_id g t) :
    allowedRunEffect run_id e := by
  have he' : e ∈ search_amazon_all_effects run_id g t :=
    List.take_subset _ _ he
  unfold search_amazon_all_effects at he'
  rw [List.mem_append] at he'
  rcases he' with h3 | hif
  · simp only [List.mem_cons, List.not_mem_nil, or_false] at h3
    rcases h3 with rfl | rfl | rfl
    · exact Or.inr ⟨sanitizeTitle g.title, rfl⟩
    · exact Or.inr (Or.inr (Or.inl ⟨sanitizeTitle g.title, Or.inl rfl, rfl⟩))
    · exact Or.inr (Or.inr (Or.inl ⟨sanitizeTitle g.title, Or.inr rfl, rfl⟩))
  · by_cases hm : t.matches_schema
    · simp only [hm, if_true, List.mem_singleton] at hif
      subst hif
      exact Or.inr (Or.inr (Or.inr
        ⟨sanitizeTitle g.title, (updated_game g t).model_dump, rfl, rfl⟩))
    · simp [hm] at hif

end VideoGameResearch

/-- C7: every durable effect of a `run_game_search` run is under
`game_searches/<run_id>/`: a JSON `metadata.json` or `results.json`, a
per-game screenshot `amazon_search.png` / `amazon_product.png`, or a
per-game JSON `game_data.json` (directories only for the run and per-game
directories); the run performs no other persistence. -/
theorem VideoGameResearch.run_game_search_effects_spec
    (env : VideoGameResearch.RunEnv) (e : VideoGameResearch.FsEffect)
    (he : e ∈ VideoGameResearch.run_game_search_effects env) :
    VideoGameResearch.allowedRunEffect env.run_id e := by
  unfold VideoGameResearch.run_game_search_effects at he
  rw [List.mem_append] at he
  rcases he with h2 | hif
  · simp only [List.mem_cons, List.not_mem_nil, or_false] at h2
    rcases h2 with rfl | rfl
    · exact Or.inl rfl
    · exact Or.inl ⟨rfl, VideoGameResearch.metadata_json env, rfl⟩
  · cases hempty : env.top_games.isEmpty with
    | true =>
      rw [hempty] at hif
      simp at hif
    | false =>
      rw [hempty] at hif
      simp only [Bool.false_eq_true, if_false, List.mem_append, List.mem_flatMap,
        List.mem_singleton] at hif
      rcases hif with ⟨p, _, hpe⟩ | rfl
      · exact VideoGameResearch.search_amazon_effects_allowed env.run_id p.1 p.2 e hpe
      · exact Or.inr (Or.inl ⟨rfl, VideoGameResearch.results_json env, rfl⟩)

/-- C7 witness: the run directory of a concrete one-game run is an allowed
effect. -/
theorem VideoGameResearch.run_game_search_effects_spec_witness :
    VideoGameResearch.allowedRunEffect "r1"
      (.mkdir ["game_searches", "r1"]) :=
  VideoGameResearch.run_game_search_effects_spec
    ⟨"r1", "PlayStation 5", 5, 5, "2025-01-01T00:00:00",
      [⟨"Elden Ring", "PlayStation 5", none, none, none, none, none, none,
        none, none⟩],
      [⟨9, "https://www.amazon.com/x", true, some "$59.99", some "A game"⟩]⟩
    (.mkdir ["game_searches", "r1"])
    (List.mem_cons_self _ _)

namespace VideoGameResearch

/-- The durable file contents after a trace of effects: the written files,
in write order (`mkdir` leaves no file). -/
def fileStore (effs : List FsEffect) : List (List String × FileData) :=
  effs.filterMap fun e =>
    match e with
    | .write p d => some (p, d)
    | .mkdir _ => none

/-- Reading a file back: the last write to the path wins; `none` when the
path was never written. -/
def readFile : List (List String × FileData) → List String → Option FileData
  | [], _ => none
  | (p', d) :: rest, p =>
      match readFile rest p with
      | some d' => some d'
      | none => if p' = p then some d else none

/-- Python `json.load(open(path))`: `none` models the raised exception when
the file is missing or not JSON. -/
def readJson (store : List (List String × FileData)) (p : List String) :
    Option Json :=
  match readFile store p with
  | some (.json j) => some j
  | _ => none

/-- Helper: reading from a store none of whose entries has the path. -/
theorem readFile_of_all_ne (l : List (List String × FileData)) (p : List String)
    (h : ∀ x ∈ l, x.1 ≠ p) : readFile l p = none := by
  induction l with
  | nil => rfl
  | cons a l ih =>
    obtain ⟨p', d⟩ := a
    have hne : p' ≠ p := h (p', d) (List.mem_cons_self _ _)
    have hrest : readFile l p = none :=
      ih (fun x hx => h x (List.mem_cons_of_mem _ hx))
    simp [readFile, hrest, hne]

/-- Helper: reading from an appended store prefers the later part. -/
theorem readFile_append (l l' : List (List String × FileData)) (p : List String) :
    readFile (l ++ l') p =
      match readFile l' p with
      | some d => some d
      | none => readFile l p := by
  induction l with
  | nil =>
    cases h : readFile l' p <;> simp [readFile, h]
  | cons a l ih =>
    obtain ⟨p', d⟩ := a
    rw [List.cons_append]
    show (match readFile (l ++ l') p with
      | some d' => some d'
      | none => if p' = p then some d else none) = _
    rw [ih]
    cases h : readFile l' p <;> simp [readFile]

/-- Helper: every file a per-game task writes sits four segments deep
(`game_searches/<run_id>/<dir>/<name>`). -/
theorem search_amazon_store_len (run_id : String) (g : GameInfo) (t : GameTask) :
    ∀ x ∈ fileStore (search_amazon_effects run_id g t), x.1.length = 4 := by
  intro x hx
  rw [fileStore, List.mem_filterMap] at hx
  obtain ⟨e, he, hfe⟩ := hx
  have he' : e ∈ search_amazon_all_effects run_id g t :=
    List.take_subset _ _ he
  unfold search_amazon_all_effects at he'
  rw [List.mem_append] at he'
  rcases he' with h3 | hif
  · simp only [List.mem_cons, List.not_mem_nil, or_false] at h3
    rcases h3 with rfl | rfl | rfl
    · simp at hfe
    · simp only [Option.some.injEq] at hfe
      rw [← hfe]
      simp [game_dir]
    · simp only [Option.some.injEq] at hfe
      rw [← hfe]
      simp [game_dir]
  · by_cases hm : t.matches_schema
    · simp only [hm, if_true, List.mem_singleton] at hif
      subst hif
      simp only [Option.some.injEq] at hfe
      rw [← hfe]
      simp [game_dir]
    · simp [hm] at hif

/-- Helper: the same, across all per-game tasks of a run. -/
theorem run_per_game_store_len (env : RunEnv) :
    ∀ x ∈ fileStore ((env.top_games.zip env.tasks).flatMap
      (fun p => search_amazon_effects env.run_id p.1 p.2)), x.1.length = 4 := by
  intro x hx
  rw [fileStore, List.mem_filterMap] at hx
  obtain ⟨e, he, hfe⟩ := hx
  rw [List.mem_flatMap] at he
  obtain ⟨p, -, hpe⟩ := he
  exact search_amazon_store_len env.run_id p.1 p.2 x
    (by rw [fileStore, List.mem_filterMap]; exact ⟨e, hpe, hfe⟩)

/-- The pair `(results, metadata)` that `load_search_data` returns; the
`results` dict has exactly the keys `run_id`, `games`, `search_params`. -/
structure LoadedResults where
  run_id : String
  games : List GameInfo
  search_params : Json

/-- Function `load_search_data(run_id)` of `video_game_research_st.py` lines
244-266, reading from the modelled file store.  A missing or unreadable
`metadata.json` yields `(None, None)`; any failure while reading
`results.json`, validating a game record, or fetching `search_params`
yields `(None, metadata)`. -/
def load_search_data (store : List (List String × FileData)) (run_id : String) :
    Option LoadedResults × Option Json :=
  match readJson store ["game_searches", run_id, "metadata.json"] with
  | none => (none, none)
  | some metadata =>
    match readJson store ["game_searches", run_id, "results.json"] with
    | none => (none, some metadata)
    | some rj =>
      match rj.lookup "games" with
      | some (.arr gs) =>
        match validateGames gs with
        | some games =>
          match rj.lookup "search_params" with
          | some sp => (some ⟨run_id, games, sp⟩, some metadata)
          | none => (none, some metadata)
        | none => (none, some metadata)
      | _ => (none, some metadata)

end VideoGameResearch


/-- C10: for every run in which `run_game_search` wrote `metadata.json` and
`results.json` (i.e. games were found), `load_search_data(run_id)`
round-trips the snapshot: the metadata comes back exactly as written, and
the results carry the saved `search_params` and exactly the detailed game
records that were saved — `model_validate` recovers every `model_dump`ed
record. -/
theorem VideoGameResearch.load_search_data_round_trip
    (env : VideoGameResearch.RunEnv) (h : env.top_games.isEmpty = false) :
    VideoGameResearch.load_search_data
        (VideoGameResearch.fileStore (VideoGameResearch.run_game_search_effects env))
        env.run_id =
      (some ⟨env.run_id, VideoGameResearch.detailed_games env,
          VideoGameResearch.search_params_json env⟩,
        some (VideoGameResearch.metadata_json env)) := by
  have hstore : VideoGameResearch.fileStore
      (VideoGameResearch.run_game_search_effects env) =
      (["game_searches", env.run_id, "metadata.json"],
        .json (VideoGameResearch.metadata_json env)) ::
      (VideoGameResearch.fileStore ((env.top_games.zip env.tasks).flatMap
          (fun p => VideoGameResearch.search_amazon_effects env.run_id p.1 p.2)) ++
        [(["game_searches", env.run_id, "results.json"],
          .json (VideoGameResearch.results_json env))]) := by
    unfold VideoGameResearch.run_game_search_effects VideoGameResearch.fileStore
    rw [h]
    simp [List.filterMap_append]
  have hlen := VideoGameResearch.run_per_game_store_len env
  have hpgNone : VideoGameResearch.readFile
      (VideoGameResearch.fileStore ((env.top_games.zip env.tasks).flatMap
        (fun p => VideoGameResearch.search_amazon_effects env.run_id p.1 p.2)))
      ["game_searches", env.run_id, "metadata.json"] = none :=
    VideoGameResearch.readFile_of_all_ne _ _ (fun x hx hcontra => by
      have hx4 := hlen x hx
      rw [hcontra] at hx4
      simp at hx4)
  have hmeta : VideoGameResearch.readJson
      (VideoGameResearch.fileStore (VideoGameResearch.run_game_search_effects env))
      ["game_searches", env.run_id, "metadata.json"] =
      some (VideoGameResearch.metadata_json env) := by
    have h1 : VideoGameResearch.readFile
        [(["game_searches", env.run_id, "results.json"],
          VideoGameResearch.FileData.json (VideoGameResearch.results_json env))]
        ["game_searches", env.run_id, "metadata.json"] = none := by
      simp [VideoGameResearch.readFile]
    have hrest : VideoGameResearch.readFile
        (VideoGameResearch.fileStore ((env.top_games.zip env.tasks).flatMap
          (fun p => VideoGameResearch.search_amazon_effects env.run_id p.1 p.2)) ++
          [(["game_searches", env.run_id, "results.json"],
            .json (VideoGameResearch.results_json env))])
        ["game_searches", env.run_id, "metadata.json"] = none := by
      rw [VideoGameResearch.readFile_append, h1]
      exact hpgNone
    rw [VideoGameResearch.readJson, hstore]
    simp [VideoGameResearch.readFile, hrest]
  have hres : VideoGameResearch.readJson
      (VideoGameResearch.fileStore (VideoGameResearch.run_game_search_effects env))
      ["game_searches", env.run_id, "results.json"] =
      some (VideoGameResearch.results_json env) := by
    have h1 : VideoGameResearch.readFile
        [(["game_searches", env.run_id, "results.json"],
          VideoGameResearch.FileData.json (VideoGameResearch.results_json env))]
        ["game_searches", env.run_id, "results.json"] =
        some (.json (VideoGameResearch.results_json env)) := by
      simp [VideoGameResearch.readFile]
    have hrest : VideoGameResearch.readFile
        (VideoGameResearch.fileStore ((env.top_games.zip env.tasks).flatMap
          (fun p => VideoGameResearch.search_amazon_effects env.run_id p.1 p.2)) ++
          [(["game_searches", env.run_id, "results.json"],
            .json (VideoGameResearch.results_json env))])
        ["game_searches", env.run_id, "results.json"] =
        some (.json (VideoGameResearch.results_json env)) := by
      rw [VideoGameResearch.readFile_append, h1]
    rw [VideoGameResearch.readJson, hstore]
    simp [VideoGameResearch.readFile, hrest]
  unfold VideoGameResearch.load_search_data
  rw [hmeta, hres]
  simp [VideoGameResearch.results_json, Json.lookup, lookupField,
    VideoGameResearch.validateGames_map_dump]

/-- C10 witness: the round trip at a concrete one-game run. -/
theorem VideoGameResearch.load_search_data_round_trip_witness :
    VideoGameResearch.load_search_data
        (VideoGameResearch.fileStore (VideoGameResearch.run_game_search_effects
          ⟨"r2", "Nintendo Switch", 1, 2, "2025-02-02T00:00:00",
            [⟨"Tears of the Kingdom", "Nintendo Switch", some "2023-05-12",
              some "Action Adventure", none, some (4.9 : ℚ), none, none, none, none⟩],
            [⟨4, "https://www.amazon.com/totk", true, some "$49.99", none⟩]⟩))
        "r2" =
      (some ⟨"r2",
          VideoGameResearch.detailed_games
            ⟨"r2", "Nintendo Switch", 1, 2, "2025-02-02T00:00:00",
              [⟨"Tears of the Kingdom", "Nintendo Switch", some "2023-05-12",
                some "Action Adventure", none, some (4.9 : ℚ), none, none, none, none⟩],
              [⟨4, "https://www.amazon.com/totk", true, some "$49.99", none⟩]⟩,
          VideoGameResearch.search_params_json
            ⟨"r2", "Nintendo Switch", 1, 2, "2025-02-02T00:00:00",
              [⟨"Tears of the Kingdom", "Nintendo Switch", some "2023-05-12",
                some "Action Adventure", none, some (4.9 : ℚ), none, none, none, none⟩],
              [⟨4, "https://www.amazon.com/totk", true, some "$49.99", none⟩]⟩⟩,
        some (VideoGameResearch.metadata_json
          ⟨"r2", "Nintendo Switch", 1, 2, "2025-02-02T00:00:00",
            [⟨"Tears of the Kingdom", "Nintendo Switch", some "2023-05-12",
              some "Action Adventure", none, some (4.9 : ℚ), none, none, none, none⟩],
            [⟨4, "https://www.amazon.com/totk", true, some "$49.99", none⟩]⟩)) :=
  VideoGameResearch.load_search_data_round_trip
    ⟨"r2", "Nintendo Switch", 1, 2, "2025-02-02T00:00:00",
      [⟨"Tears of the Kingdom", "Nintendo Switch", some "2023-05-12",
        some "Action Adventure", none, some (4.9 : ℚ), none, none, none, none⟩],
      [⟨4, "https://www.amazon.com/totk", true, some "$49.99", none⟩]⟩
    rfl

namespace NovaMcp

/-!
Model of the result-collection loop of `execute_parallel_browser_tasks`
(`strands_nova_example/nova_act_mcp_server.py` lines 485-523).  One result
file per input task was prepared; reading a file either finds it missing,
loads a JSON object (the shape `execute_nova_act_task` writes: an object
whose "results" entry is a list), or raises while reading/parsing.  The
`results_store` bookkeeping inside the loop has no effect on the returned
list and is not modelled.
-/

/-- What the collection loop finds in one task's result file. -/
inductive FileOutcome
  | missing
  | loaded (j : Json)
  | raisesOnLoad (e : String)

/-- The augmentation of one loaded task result (lines 495-507): when its
"results" list is non-empty, attach the last entry as "final_result" and
that entry's "parsed_response" — or, failing that, its "response" — as
"collected_data". -/
def process_task_result (j : Json) : Json :=
  match j.lookup "results" with
  | some (.arr (r :: rs)) =>
      let final_result := rs.getLastD r
      let j1 := j.set "final_result" final_result
      match final_result.lookup "parsed_response" with
      | some pr => j1.set "collected_data" pr
      | none =>
          match final_result.lookup "response" with
          | some resp => j1.set "collected_data" resp
          | none => j1
  | _ => j

/-- The `for result_file in result_files` loop (lines 489-521), returning the
`all_results` list.  When a file exists and loads, line 509 appends the
processed result and then line 518 — which is not under an `else` —
unconditionally appends an `{"error": "Result file not found"}` entry as
well; the `except` arm appends one error entry. -/
def collect_results : List FileOutcome → List Json
  | [] => []
  | .missing :: rest =>
      .obj [("error", .str "Result file not found")] :: collect_results rest
  | .raisesOnLoad e :: rest =>
      .obj [("error", .str e)] :: collect_results rest
  | .loaded j :: rest =>
      process_task_result j ::
        .obj [("error", .str "Result file not found")] :: collect_results rest

end NovaMcp

/-- C8 (code bug): for a single task whose result file exists and loads, the
collection loop returns two entries — the processed result and a spurious
"Result file not found" error — not one entry per task. -/
theorem NovaMcp.collect_results_double_entry :
    NovaMcp.collect_results
        [.loaded (.obj [("starting_page", .str "https://www.amazon.com"),
          ("results", .arr [.obj [("result_id", .str "res_1"),
            ("response", .str "done")]])])] =
      [.obj [("starting_page", .str "https://www.amazon.com"),
        ("results", .arr [.obj [("result_id", .str "res_1"),
          ("response", .str "done")]]),
        ("final_result", .obj [("result_id", .str "res_1"),
          ("response", .str "done")]),
        ("collected_data", .str "done")],
       .obj [("error", .str "Result file not found")]] ∧
    (NovaMcp.collect_results
        [.loaded (.obj [("starting_page", .str "https://www.amazon.com"),
          ("results", .arr [.obj [("result_id", .str "res_1"),
            ("response", .str "done")]])])]).length = 2 :=
  ⟨rfl, rfl⟩
